import Mathlib

/-!
Shallow embedding of the GPMF KLV decoder and GPS track reconstructor of
this repository: the tokenizer of pygpmf/helpers.py, the type table of
pygpmf/t.py, the pipeline of pygpmf/parse.py (gpmf2gpx) and the GPS block
decoders of flowitygpmf/src/endec.py.

Modelling conventions:
- byte buffers are lists of naturals, each below 256;
- Python exceptions become error values of the inductive type PyErr;
- calling exit(1) becomes the distinct outcome GpxOutcome.exited;
- IEEE-754 double arithmetic on scaled sample values is modelled by exact
  rational arithmetic (the two agree on every value the claims exercise;
  the one double constant whose rounding matters, 1.0/18, is embedded as
  the exact value of the IEEE-754 double nearest to 1/18);
- fourcc keys are kept as their raw 4 ASCII bytes (Python decodes them to
  str; on the ASCII range the two are in bijection).
-/

set_option maxRecDepth 10000

deriving instance DecidableEq for Except

/-- Error kinds. Each constructor is the modelling of a concrete Python
exception raised by the source, as noted at its uses. -/
inductive PyErr where
  | truncatedStream
  | unicodeError
  | unsupportedType
  | valueError
  | typeErr
  | missingRequiredField
  | unknownFixCode
  | indexError
deriving DecidableEq

/-- KLVLength of pygpmf/t.py. The source field name repeat is a Lean
keyword and is rendered rpt. -/
structure KLVLength where
  type : String
  size : Nat
  rpt : Nat
deriving DecidableEq

/-- KLVItem of pygpmf/t.py. The key is kept as its 4 raw ASCII bytes; the
fourcc field of the source (which stores the raw unpacked header) is kept
as the 8 raw header bytes. -/
structure KLVItem where
  key : List Nat
  length : KLVLength
  value : List Nat
  fourcc : List Nat
deriving DecidableEq

/-- ceil4 of pygpmf/helpers.py: (((x - 1) >> 2) + 1) << 2 on a Python int;
the arithmetic right shift by 2 is floor division by 4 and the left shift
is multiplication by 4. -/
def ceil4 (x : Int) : Int := ((x - 1).fdiv 4 + 1) * 4

/-- ceil4 restricted to natural payload lengths. -/
def ceil4Nat (n : Nat) : Nat := (ceil4 (n : Int)).toNat

/-- KLMReader.has_next of pygpmf/helpers.py: len(bin) > 8. -/
def has_next (bin : List Nat) : Bool := decide (8 < bin.length)

/-- KLMReader.pop_klm of pygpmf/helpers.py. The header is the first 8
bytes: 4 fourcc bytes, a type byte (0 becomes the sentinel "NST"), the
element size and a big-endian 16-bit repeat count. The physical payload is
ceil4(size * repeat) bytes. Errors: a non-ASCII fourcc or type byte makes
the str decode raise (unicodeError); a header shorter than 8 bytes makes
struct.unpack raise (truncatedStream); a payload shorter than announced
trips the assert "Payload size mismatch" (truncatedStream). -/
def pop_klm (bin : List Nat) : Except PyErr (KLVItem × List Nat) :=
  match bin with
  | b0 :: b1 :: b2 :: b3 :: b4 :: b5 :: b6 :: b7 :: rest =>
    if b0 < 128 ∧ b1 < 128 ∧ b2 < 128 ∧ b3 < 128 then
      if b4 = 0 ∨ b4 < 128 then
        let typeStr := if b4 = 0 then "NST" else String.singleton (Char.ofNat b4)
        let size := b5
        let rpt := b6 * 256 + b7
        let ps := ceil4Nat (size * rpt)
        let payload := rest.take ps
        if payload.length = ps then
          .ok (⟨[b0, b1, b2, b3], ⟨typeStr, size, rpt⟩, payload,
                [b0, b1, b2, b3, b4, b5, b6, b7]⟩, rest.drop ps)
        else .error .truncatedStream
      else .error .unicodeError
    else .error .unicodeError
  | _ => .error .truncatedStream

/-- KLMReader.read_all of pygpmf/helpers.py, with the structural fuel that
makes the recursion on both the remaining buffer and the unfolded payload
terminate; read_all below always supplies sufficient fuel. The loop
counter i numbers the items of one buffer; items of an unfolded key are
tokenized again under the derived path id. The parent_id parameter of the
source is only ever passed along, never read, and is omitted. -/
def readAllAux (unfold : List (List Nat)) :
    Nat → List Nat → String → Nat → Except PyErr (List (String × KLVItem))
  | 0, _, _, _ => .ok []
  | fuel + 1, data, path, i =>
    if has_next data then
      match pop_klm data with
      | .error e => .error e
      | .ok (klm, rest) =>
        if klm.key ∈ unfold then
          match readAllAux unfold fuel klm.value
              (path ++ "-" ++ toString (i + 1)) 0 with
          | .error e => .error e
          | .ok sub =>
            match readAllAux unfold fuel rest path (i + 1) with
            | .error e => .error e
            | .ok tail => .ok (sub ++ tail)
        else
          match readAllAux unfold fuel rest path (i + 1) with
          | .error e => .error e
          | .ok tail => .ok ((path, klm) :: tail)
    else .ok []

/-- KLMReader.read_all: the generator is modelled as the full sequence of
yielded (path id, item) pairs, or the first exception it raises. -/
def read_all (unfold : List (List Nat)) (data : List Nat) (path : String)
    (i : Nat) : Except PyErr (List (String × KLVItem)) :=
  readAllAux unfold (data.length + 1) data path i

/-- Big-endian unsigned integer of a byte list. -/
def beU (bs : List Nat) : Nat := bs.foldl (fun a b => a * 256 + b) 0

/-- Big-endian twos-complement signed integer of a w-byte list. -/
def beS (w : Nat) (bs : List Nat) : Int :=
  let u := beU bs
  if u < 2 ^ (8 * w - 1) then (u : Int) else (u : Int) - 2 ^ (8 * w)

/-- The w-byte chunks of a byte list (the list of rows numpy.frombuffer
produces once the length is known to be a multiple of w). -/
def chunksExact (w : Nat) (bs : List Nat) : List (List Nat) :=
  (List.range (bs.length / w)).map fun j => (bs.drop (j * w)).take w

/-- bytes.decode("latin-1"): every byte is its own code point. -/
def latin1OfBytes (bs : List Nat) : String := String.mk (bs.map Char.ofNat)

/-- value.decode("latin-1")[:n] as used for STNM, UNIT and TYPE. -/
def latin1Take (bs : List Nat) (n : Nat) : String :=
  String.mk ((bs.map Char.ofNat).take n)

theorem pop_klm_lengths (bin : List Nat) (klm : KLVItem) (rest : List Nat)
    (h : pop_klm bin = .ok (klm, rest)) :
    klm.value.length < bin.length ∧ rest.length < bin.length := by
  match bin with
  | b0 :: b1 :: b2 :: b3 :: b4 :: b5 :: b6 :: b7 :: r =>
    simp only [pop_klm] at h
    split at h
    · split at h
      · split at h
        · simp only [Except.ok.injEq, Prod.mk.injEq] at h
          obtain ⟨h1, h2⟩ := h
          subst h1; subst h2
          have ht : (r.take (ceil4Nat (b5 * (b6 * 256 + b7)))).length ≤ r.length := by
            simp
          have hd : (r.drop (ceil4Nat (b5 * (b6 * 256 + b7)))).length ≤ r.length := by
            simp
          constructor
          · simp only [List.length_cons]
            omega
          · simp only [List.length_cons]
            omega
        · exact absurd h (by simp)
      · exact absurd h (by simp)
    · exact absurd h (by simp)
  | [] => exact absurd h (by simp [pop_klm])
  | [_] => exact absurd h (by simp [pop_klm])
  | [_, _] => exact absurd h (by simp [pop_klm])
  | [_, _, _] => exact absurd h (by simp [pop_klm])
  | [_, _, _, _] => exact absurd h (by simp [pop_klm])
  | [_, _, _, _, _] => exact absurd h (by simp [pop_klm])
  | [_, _, _, _, _, _] => exact absurd h (by simp [pop_klm])
  | [_, _, _, _, _, _, _] => exact absurd h (by simp [pop_klm])

/-- TYPE_CONV of pygpmf/t.py: the fixed ten-entry table mapping a GPMF
type code to a numpy dtype name and a struct format character. -/
def TYPE_CONV (c : String) : Option (String × String) :=
  if c = "d" then some ("float64", "d")
  else if c = "f" then some ("float32", "f")
  else if c = "b" then some ("int8", "b")
  else if c = "B" then some ("uint8", "B")
  else if c = "s" then some ("int16", "h")
  else if c = "S" then some ("uint16", "H")
  else if c = "l" then some ("int32", "i")
  else if c = "L" then some ("uint32", "I")
  else if c = "j" then some ("int64", "q")
  else if c = "J" then some ("uint64", "Q")
  else none

/-- Byte width of the numpy dtype of a struct format character of
TYPE_CONV (numpy.dtype(">" + stype).itemsize). -/
def stypeWidth (s : String) : Nat :=
  if s = "d" then 8 else if s = "f" then 4
  else if s = "b" then 1 else if s = "B" then 1
  else if s = "h" then 2 else if s = "H" then 2
  else if s = "i" then 4 else if s = "I" then 4
  else if s = "q" then 8 else if s = "Q" then 8
  else 1

/-- Signedness of the numpy dtype of a struct format character. -/
def stypeSigned (s : String) : Bool :=
  s = "b" ∨ s = "h" ∨ s = "i" ∨ s = "q"

/-- Floatness of the numpy dtype of a struct format character. -/
def stypeIsFloat (s : String) : Bool := s = "d" ∨ s = "f"

/-- A logical value produced by GPMFData.decode_from_type: a str, a numpy
integer scalar or array (collapsed to a scalar when the array has exactly
one element), or a float scalar or array kept as raw big-endian bit
patterns (the decoders under verification never consume float payloads on
the paths the claims exercise). -/
inductive PyVal where
  | str (s : String)
  | intScalar (n : Int)
  | intArr (ns : List Int)
  | floatScalar (width : Nat) (bits : Nat)
  | floatArr (width : Nat) (bits : List Nat)
deriving DecidableEq

/-- GPMFData.decode_from_type of flowitygpmf/src/endec.py. Type code "U"
returns the latin-1 decode of the whole (padded) payload. Any other code
is looked up in TYPE_CONV; a missing entry is the KeyError the spec calls
UnsupportedType. numpy.frombuffer requires the payload length to be a
multiple of the item size (else ValueError) and a one-element result is
collapsed to a scalar. The dim1 variable of the source is dead code (its
only use is commented out) and is omitted. -/
def decode_from_type (item : KLVItem) : Except PyErr PyVal :=
  if item.length.type = "U" then .ok (.str (latin1OfBytes item.value))
  else
    match TYPE_CONV item.length.type with
    | none => .error .unsupportedType
    | some (_, stype) =>
      let w := stypeWidth stype
      if item.value.length % w = 0 then
        let n := item.value.length / w
        if stypeIsFloat stype then
          let xs := (chunksExact w item.value).map beU
          if n = 1 then .ok (.floatScalar w (xs.getD 0 0)) else .ok (.floatArr w xs)
        else
          let xs := (chunksExact w item.value).map
            fun bs => if stypeSigned stype then beS w bs else (beU bs : Int)
          if n = 1 then .ok (.intScalar (xs.getD 0 0)) else .ok (.intArr xs)
      else .error .valueError

/-- Python int(v) applied to a value decode_from_type produced. An integer
scalar converts; int() of a multi-element or empty numpy array raises
TypeError; int() of a str only succeeds on a digit string (signs and
whitespace never occur on the exercised paths and are not modelled);
float scalars are kept abstract as bit patterns, so converting one is
modelled as an error (no claim exercises a float field here). -/
def pyIntOf (v : PyVal) : Except PyErr Int :=
  match v with
  | .intScalar n => .ok n
  | .str s =>
    if s.data ≠ [] ∧ s.data.all Char.isDigit then .ok (s.toNat?.getD 0 : Nat)
    else .error .valueError
  | .intArr _ => .error .typeErr
  | .floatScalar _ _ => .error .valueError
  | .floatArr _ _ => .error .typeErr

/-- Python v[0] applied to a value decode_from_type produced (GPSP path).
Indexing a numpy array takes its first element (IndexError when empty);
indexing a numpy scalar raises TypeError; indexing a str yields a
one-character str, which the subsequent division would reject, modelled
as TypeError directly. -/
def index0 (v : PyVal) : Except PyErr Int :=
  match v with
  | .intArr (x :: _) => .ok x
  | .intArr [] => .error .indexError
  | .floatArr _ (_ :: _) => .error .valueError
  | .floatArr _ [] => .error .indexError
  | .intScalar _ => .error .typeErr
  | .floatScalar _ _ => .error .typeErr
  | .str _ => .error .typeErr

/-- Days from 1970-01-01 to the civil date y-m-d (proleptic Gregorian),
the standard era-based calendar algorithm on integers. -/
def daysFromCivil (y m d : Int) : Int :=
  let y2 := if m ≤ 2 then y - 1 else y
  let era := y2.fdiv 400
  let yoe := y2 - era * 400
  let mp := if 2 < m then m - 3 else m + 9
  let doy := (153 * mp + 2).fdiv 5 + d - 1
  let doe := yoe * 365 + yoe.fdiv 4 - yoe.fdiv 100 + doy
  era * 146097 + doe - 719468

/-- Microseconds from 2000-01-01T00:00:00 to the given naive civil
date-time; the representation of every datetime value in this model. -/
def civilMicros (y m d hh mi ss us : Int) : Int :=
  (daysFromCivil y m d - daysFromCivil 2000 1 1) * 86400000000 +
    (hh * 3600 + mi * 60 + ss) * 1000000 + us

/-- Round a rational to the nearest integer, ties to even: the rounding
Python round() and the timedelta constructor apply to microseconds. -/
def roundHalfEven (q : ℚ) : Int :=
  let f := ⌊q⌋
  let r := q - f
  if r < 1 / 2 then f
  else if 1 / 2 < r then f + 1
  else if f % 2 = 0 then f else f + 1

/-- Microseconds of Python timedelta(days=x): the total is rounded once to
the nearest microsecond, ties to even. -/
def tdDaysMicros (x : ℚ) : Int := roundHalfEven (x * 86400000000)

/-- Microseconds of Python timedelta(seconds=x). -/
def tdSecondsMicros (x : ℚ) : Int := roundHalfEven (x * 1000000)

/-- The exact value of the IEEE-754 double nearest to 1/18 (the Python
expression 1.0/18.): its significand is round(2 to the 56th / 9) =
8006399337547548 and its exponent is -57. -/
def float118 : ℚ := 8006399337547548 / 144115188075855872

/-- Microseconds of SAMPLE_TIME = timedelta(seconds=1.0/18.) in
GPMFData.decode_gps5. -/
def sampleTimeMicros : Int := tdSecondsMicros float118

theorem sampleTimeMicros_eq : sampleTimeMicros = 55556 := by
  norm_num [sampleTimeMicros, tdSecondsMicros, roundHalfEven, float118]

/-- Python int() truncation of a rational toward zero. -/
def pyTrunc (q : ℚ) : Int := if q < 0 then ⌈q⌉ else ⌊q⌋

/-- FIX_TYPE of flowitygpmf/src/endec.py: the dict mapping a fix code to
its GPX fix name; a missing code is a KeyError (UnknownFixCode). -/
def FIX_TYPE (n : Int) : Option String :=
  if n = 0 then some "none"
  else if n = 2 then some "2d"
  else if n = 3 then some "3d"
  else none

/-- A GPXTrackPoint as GPMFData._build_gpx_point fills it. The speed
extension elements keep their numeric values (the source renders them to
XML text, which no claim inspects). -/
structure GPXTrackPoint where
  latitude : ℚ
  longitude : ℚ
  elevation : ℚ
  time : Int
  comment : String
  position_dilution : ℚ
  name : String
  type_of_gpx_fix : String
  speed_2d : ℚ
  speed_3d : ℚ
deriving DecidableEq, Inhabited

/-- A diagnostic logging.warning emitted by _build_gpx_point. -/
inductive Diag where
  | invalidLatitude
  | invalidLongitude
deriving DecidableEq

/-- GPMFData._build_gpx_point of flowitygpmf/src/endec.py: out-of-range
coordinates are zeroed with a warning, the point is always built, and the
fix code is mapped through FIX_TYPE (KeyError outside 0, 2, 3). The idx
argument only feeds the warning text in the source. -/
def buildGpxPoint (name unit gps_a : String) (idx : Nat)
    (lat lng elv dop vel2d vel3d fix : ℚ) (gps_time : Int) :
    Except PyErr (GPXTrackPoint × List Diag) :=
  let latBad := 90 < lat ∨ lat < -90
  let lngBad := 180 < lng ∨ lng < -180
  let lat2 := if latBad then 0 else lat
  let lng2 := if lngBad then 0 else lng
  let diags := (if latBad then [Diag.invalidLatitude] else []) ++
    (if lngBad then [Diag.invalidLongitude] else [])
  match FIX_TYPE (pyTrunc fix) with
  | none => .error .unknownFixCode
  | some fs =>
    .ok ({ latitude := lat2, longitude := lng2, elevation := elv,
           time := gps_time,
           comment := "unit<" ++ unit ++ "> gpsa<" ++ gps_a ++ ">",
           position_dilution := dop, name := name, type_of_gpx_fix := fs,
           speed_2d := vel2d, speed_3d := vel3d }, diags)

/-- Value of an ASCII digit character. -/
def digitVal (c : Char) : Nat := c.toNat - 48

/-- Value of a list of ASCII digit characters read in base 10. -/
def digitsVal (cs : List Char) : Nat := cs.foldl (fun a c => a * 10 + digitVal c) 0

def isLeapYear (y : Int) : Bool := (y % 4 = 0 ∧ y % 100 ≠ 0) ∨ y % 400 = 0

def daysInMonth (y m : Int) : Int :=
  if m = 2 then (if isLeapYear y then 29 else 28)
  else if m = 4 ∨ m = 6 ∨ m = 9 ∨ m = 11 then 30
  else 31

/-- datetime.strptime(s, "%Y%m%d%H%M%S.%f") modelled on its fixed-width
shape: 14 digits, a dot, then 1 to 6 fraction digits (padded to
microseconds). Any other shape, or a field outside datetime ranges, is
the ValueError strptime or the datetime constructor raises. Shorter digit
runs that the stdlib regex could still accept through backtracking never
arise from the fixed-width GPSU payloads and are not modelled. -/
def strptimeYmdHMSf (s : String) : Except PyErr Int :=
  match s.data with
  | y1 :: y2 :: y3 :: y4 :: m1 :: m2 :: d1 :: d2 ::
      h1 :: h2 :: mi1 :: mi2 :: s1 :: s2 :: dot :: frac =>
    if ([y1, y2, y3, y4, m1, m2, d1, d2, h1, h2, mi1, mi2, s1, s2].all
          Char.isDigit) ∧
        dot = Char.ofNat 46 ∧ frac ≠ [] ∧ frac.length ≤ 6 ∧
        frac.all Char.isDigit then
      let y : Int := digitsVal [y1, y2, y3, y4]
      let mo : Int := digitsVal [m1, m2]
      let dy : Int := digitsVal [d1, d2]
      let hh : Int := digitsVal [h1, h2]
      let mi : Int := digitsVal [mi1, mi2]
      let ss : Int := digitsVal [s1, s2]
      let us : Int := digitsVal frac * 10 ^ (6 - frac.length)
      if 1 ≤ y ∧ 1 ≤ mo ∧ mo ≤ 12 ∧ 1 ≤ dy ∧ dy ≤ daysInMonth y mo ∧
          hh ≤ 23 ∧ mi ≤ 59 ∧ ss ≤ 59 then
        .ok (civilMicros y mo dy hh mi ss us)
      else .error .valueError
    else .error .valueError
  | _ => .error .valueError

/-- struct.unpack(">cccc", GPSA.value[:4]) followed by join and decode:
needs exactly 4 bytes (struct.error otherwise) and an ASCII decode. -/
def gpsaOf (item : KLVItem) : Except PyErr String :=
  match item.value with
  | a :: b :: c :: d :: _ =>
    if a < 128 ∧ b < 128 ∧ c < 128 ∧ d < 128 then
      .ok (String.mk [Char.ofNat a, Char.ofNat b, Char.ofNat c, Char.ofNat d])
    else .error .unicodeError
  | _ => .error .valueError

/-- numpy.frombuffer(bs, ">i") / (bs, ">i4"): big-endian signed 32-bit
integers; ValueError unless the length is a multiple of 4. -/
def i32ListOf (bs : List Nat) : Except PyErr (List Int) :=
  if bs.length % 4 = 0 then .ok ((chunksExact 4 bs).map (beS 4))
  else .error .valueError

/-- One stream block: the dict of KLVItems gpmf2gpx assembles for one
path id, in insertion order; a repeated key overwrites (last write wins),
which dget realises by preferring the latest entry. -/
abbrev Strm : Type := List (List Nat × KLVItem)

/-- dict lookup with last-write-wins semantics. -/
def dget (strm : Strm) (k : List Nat) : Option KLVItem :=
  List.foldl (fun acc kv => if kv.1 = k then some kv.2 else acc) none strm

/-- Python membership test key in dict. -/
def hasKey (strm : Strm) (k : List Nat) : Bool :=
  List.any strm fun kv => kv.1 = k

/-- strm.get(k) followed by using the result as a KLVItem: a missing key
returns None and the attribute access on None raises (the failure the
spec calls MissingRequiredField). -/
def req (strm : Strm) (k : List Nat) : Except PyErr KLVItem :=
  match dget strm k with
  | some it => .ok it
  | none => .error .missingRequiredField

def keyDEVC : List Nat := [68, 69, 86, 67]
def keySTRM : List Nat := [83, 84, 82, 77]
def keyGPS5 : List Nat := [71, 80, 83, 53]
def keyGPS9 : List Nat := [71, 80, 83, 57]
def keySTMP : List Nat := [83, 84, 77, 80]
def keyTSMP : List Nat := [84, 83, 77, 80]
def keySTNM : List Nat := [83, 84, 78, 77]
def keyUNIT : List Nat := [85, 78, 73, 84]
def keyTYPE : List Nat := [84, 89, 80, 69]
def keySCAL : List Nat := [83, 67, 65, 76]
def keyGPSA : List Nat := [71, 80, 83, 65]
def keyGPSU : List Nat := [71, 80, 83, 85]
def keyGPSP : List Nat := [71, 80, 83, 80]
def keyGPSF : List Nat := [71, 80, 83, 70]
def keyEMPT : List Nat := [69, 77, 80, 84]

/-- Element-wise division of each sample row by SCAL, following numpy
broadcasting for a (rows, cols) matrix against a length-n divisor vector:
n = cols divides column-wise, n = 1 divides uniformly, anything else is a
broadcasting ValueError. (The degenerate cols = 1 broadcast that would
widen each row is never produced by these decoders and is not modelled.)
Division is exact rational division; numpy performs it in doubles. -/
def matDiv (cols : Nat) (mat : List (List Int)) (scal : List Int) :
    Except PyErr (List (List ℚ)) :=
  if scal.length = cols then
    .ok (mat.map fun row => List.zipWith (fun (a s : Int) => (a : ℚ) / (s : ℚ)) row scal)
  else if scal.length = 1 then
    match scal with
    | s :: _ => .ok (mat.map fun row => row.map fun (a : Int) => (a : ℚ) / (s : ℚ))
    | [] => .error .valueError
  else .error .valueError

/-- The loop of GPMFData.decode_gps5 over the scaled sample rows, carrying
the enumerate index: sample i is stamped GPSU + SAMPLE_TIME * i and needs
row entries 0 to 4 (IndexError on a shorter row). Only the points are
collected; the warnings go to the ambient log. -/
def gps5PointsGo (stnm unit gpsa : String) (gpsp : ℚ) (gpsf : Int)
    (gpsu : Int) : Nat → List (List ℚ) → Except PyErr (List GPXTrackPoint)
  | _, [] => .ok []
  | i, row :: rows =>
    if row.length < 5 then .error .indexError
    else
      match buildGpxPoint stnm unit gpsa i (row.getD 0 0) (row.getD 1 0)
          (row.getD 2 0) gpsp (row.getD 3 0) (row.getD 4 0) (gpsf : ℚ)
          (gpsu + sampleTimeMicros * i) with
      | .error e => .error e
      | .ok (pt, _) =>
        match gps5PointsGo stnm unit gpsa gpsp gpsf gpsu (i + 1) rows with
        | .error e => .error e
        | .ok rest => .ok (pt :: rest)

def gps5Points (stnm unit gpsa : String) (gpsp : ℚ) (gpsf : Int)
    (gpsu : Int) (rows : List (List ℚ)) : Except PyErr (List GPXTrackPoint) :=
  gps5PointsGo stnm unit gpsa gpsp gpsf gpsu 0 rows

/-- GPMFData.decode_gps5 of flowitygpmf/src/endec.py. A block carrying an
EMPT marker returns an empty segment before anything else is read. Every
other read follows the source order: STMP, TSMP (ints, discarded), STNM,
UNIT (truncated latin-1 strings), GPSU (string date prefixed with the
century "20" and parsed), GPSP (first element, centimeters to meters),
GPSF (int fix code), GPSA (4 ASCII bytes), SCAL (int32 array), GPS5
(int32 matrix reshaped to repeat rows of size/4 columns, then divided by
SCAL). A GPSU payload that decodes to a non-string would be formatted
through an f-string before strptime; no digits-only rendering of a numpy
value matches the 14-digit shape modelled here, so it is folded into the
same ValueError. -/
def decode_gps5 (strm : Strm) : Except PyErr (List GPXTrackPoint) :=
  if hasKey strm keyEMPT then .ok []
  else do
    let stmpI ← req strm keySTMP
    let stmpV ← decode_from_type stmpI
    let _ ← pyIntOf stmpV
    let tsmpI ← req strm keyTSMP
    let tsmpV ← decode_from_type tsmpI
    let _ ← pyIntOf tsmpV
    let stnmI ← req strm keySTNM
    let stnm := latin1Take stnmI.value stnmI.length.size
    let unitI ← req strm keyUNIT
    let unit := latin1Take unitI.value unitI.length.size
    let gpsuI ← req strm keyGPSU
    let gpsuV ← decode_from_type gpsuI
    let gpsu ← match gpsuV with
      | .str s => strptimeYmdHMSf ("20" ++ s)
      | _ => .error .valueError
    let gpspI ← req strm keyGPSP
    let gpspV ← decode_from_type gpspI
    let gpsp0 ← index0 gpspV
    let gpsp : ℚ := (gpsp0 : ℚ) / 100
    let gpsfI ← req strm keyGPSF
    let gpsfV ← decode_from_type gpsfI
    let gpsf ← pyIntOf gpsfV
    let gpsaI ← req strm keyGPSA
    let gpsa ← gpsaOf gpsaI
    let scalI ← req strm keySCAL
    let scal ← i32ListOf scalI.value
    let g5I ← req strm keyGPS5
    let flat ← i32ListOf g5I.value
    let cols := g5I.length.size / 4
    if g5I.length.rpt * cols ≠ flat.length then .error .valueError
    else
      let mat := (List.range g5I.length.rpt).map
        fun r => (flat.drop (r * cols)).take cols
      let scaled ← matDiv cols mat scal
      gps5Points stnm unit gpsa gpsp gpsf gpsu scaled

/-- Byte width and signedness of a struct format character as
struct.unpack uses it in big-endian mode. Only the integer codes that can
appear after the TYPE quirk substitutions are modelled; float, byte and
padding codes would need IEEE semantics and are mapped to the same error
struct.unpack raises on an unknown character. -/
def structInfo (c : Char) : Option (Nat × Bool) :=
  if c = Char.ofNat 98 then some (1, true)
  else if c = Char.ofNat 66 then some (1, false)
  else if c = Char.ofNat 104 then some (2, true)
  else if c = Char.ofNat 72 then some (2, false)
  else if c = Char.ofNat 105 then some (4, true)
  else if c = Char.ofNat 73 then some (4, false)
  else if c = Char.ofNat 108 then some (4, true)
  else if c = Char.ofNat 76 then some (4, false)
  else if c = Char.ofNat 113 then some (8, true)
  else if c = Char.ofNat 81 then some (8, false)
  else none

/-- struct.unpack(">" + fmt, bytes): reads one big-endian value per format
character and requires the buffer length to match the format exactly
(struct.error, modelled as valueError, otherwise). -/
def structUnpackGo : List Char → List Nat → Except PyErr (List Int)
  | [], [] => .ok []
  | [], _ :: _ => .error .valueError
  | c :: cs, bs =>
    match structInfo c with
    | none => .error .valueError
    | some (w, signed) =>
      if bs.length < w then .error .valueError
      else
        match structUnpackGo cs (bs.drop w) with
        | .error e => .error e
        | .ok rest =>
          .ok ((if signed then beS w (bs.take w) else (beU (bs.take w) : Int)) :: rest)

/-- The row loop of decode_gps9: unpack GPS9.value[r*size:(r+1)*size] for
each r below repeat. -/
def unpackRows (fmt : List Char) (size rpt : Nat) (bs : List Nat) :
    Except PyErr (List (List Int)) :=
  (List.range rpt).mapM fun r => structUnpackGo fmt ((bs.drop (r * size)).take size)

/-- Replacement of every occurrence of a character in a string (the
source calls str.replace with one-character patterns). -/
def replaceChar (s : String) (a b : Char) : String :=
  String.mk (s.data.map fun c => if c = a then b else c)

/-- The per-sample timestamp of decode_gps9:
datetime.strptime("2000", "%Y") + timedelta(days=col5) +
timedelta(seconds=col6); the strptime epoch is 2000-01-01T00:00:00, the
zero of this model, and each timedelta rounds to microseconds once. -/
def gps9SampleTimeMicros (days sec : ℚ) : Int :=
  civilMicros 2000 1 1 0 0 0 0 + tdDaysMicros days + tdSecondsMicros sec

/-- The loop of GPMFData.decode_gps9 over the scaled sample rows: needs
row entries 0 to 8 (IndexError on a shorter row), reads the timestamp
from columns 5 and 6, dilution from 7 and the fix code from 8. -/
def gps9PointsGo (stnm unit gpsa : String) :
    Nat → List (List ℚ) → Except PyErr (List GPXTrackPoint)
  | _, [] => .ok []
  | i, row :: rows =>
    if row.length < 9 then .error .indexError
    else
      match buildGpxPoint stnm unit gpsa i (row.getD 0 0) (row.getD 1 0)
          (row.getD 2 0) (row.getD 7 0) (row.getD 3 0) (row.getD 4 0)
          (row.getD 8 0) (gps9SampleTimeMicros (row.getD 5 0) (row.getD 6 0)) with
      | .error e => .error e
      | .ok (pt, _) =>
        match gps9PointsGo stnm unit gpsa (i + 1) rows with
        | .error e => .error e
        | .ok rest => .ok (pt :: rest)

def gps9Points (stnm unit gpsa : String) (rows : List (List ℚ)) :
    Except PyErr (List GPXTrackPoint) :=
  gps9PointsGo stnm unit gpsa 0 rows

/-- GPMFData.decode_gps9 of flowitygpmf/src/endec.py, in source order:
STMP, TSMP (ints, discarded), STNM, UNIT, TYPE (truncated latin-1
strings), GPSA, SCAL, then GPS9 unpacked row by row with the format
string TYPE after the two format quirk substitutions l to I and S to H,
and divided by SCAL. -/
def decode_gps9 (strm : Strm) : Except PyErr (List GPXTrackPoint) := do
  let stmpI ← req strm keySTMP
  let stmpV ← decode_from_type stmpI
  let _ ← pyIntOf stmpV
  let tsmpI ← req strm keyTSMP
  let tsmpV ← decode_from_type tsmpI
  let _ ← pyIntOf tsmpV
  let stnmI ← req strm keySTNM
  let stnm := latin1Take stnmI.value stnmI.length.size
  let unitI ← req strm keyUNIT
  let unit := latin1Take unitI.value unitI.length.size
  let typeI ← req strm keyTYPE
  let tystr := latin1Take typeI.value typeI.length.size
  let gpsaI ← req strm keyGPSA
  let gpsa ← gpsaOf gpsaI
  let scalI ← req strm keySCAL
  let scal ← i32ListOf scalI.value
  let g9I ← req strm keyGPS9
  let typing := replaceChar (replaceChar tystr (Char.ofNat 108) (Char.ofNat 73))
    (Char.ofNat 83) (Char.ofNat 72)
  let rows ← unpackRows typing.data g9I.length.size g9I.length.rpt g9I.value
  let scaled ← matDiv typing.data.length rows scal
  gps9Points stnm unit gpsa scaled

/-- GPMFData.strm_type of flowitygpmf/src/endec.py: GPS9 wins over GPS5,
anything else is UNKNOWN. -/
def strm_type (strm : Strm) : String :=
  if hasKey strm keyGPS9 then "GPS9"
  else if hasKey strm keyGPS5 then "GPS5"
  else "UNKNOWN"

/-- The block-grouping loop of gpmf2gpx: each (path id, item) pair is
appended to the dict of its path id, path ids in first-seen order. -/
def groupBlocksGo : List (String × Strm) → List (String × KLVItem) →
    List (String × Strm)
  | acc, [] => acc
  | acc, (p, it) :: rest =>
    groupBlocksGo
      (if acc.any fun e => e.1 = p then
        acc.map fun e => if e.1 = p then (e.1, e.2 ++ [(it.key, it)]) else e
      else acc ++ [(p, [(it.key, it)])]) rest

def groupBlocks (pairs : List (String × KLVItem)) : List (String × Strm) :=
  groupBlocksGo [] pairs

/-- Outcome of gpmf2gpx: a returned track (one merged segment), a Python
exception propagating to the caller, or process termination through
exit(1). -/
inductive GpxOutcome where
  | ok (track : List (List GPXTrackPoint))
  | err (e : PyErr)
  | exited (code : Nat)
deriving DecidableEq

/-- gpmf2gpx of pygpmf/parse.py: tokenize with DEVC and STRM unfolded,
group items into blocks by path id, decode the segments of all GPS9
blocks; if there are none, decode the segments of all GPS5 blocks; if
there are none either, warn and exit(1). The chosen segments are merged
into one segment appended to one track. -/
def gpmf2gpx (data : List Nat) : GpxOutcome :=
  match read_all [keyDEVC, keySTRM] data "gpmf" 0 with
  | .error e => .err e
  | .ok pairs =>
    let blocks := (groupBlocks pairs).map fun e => e.2
    match (blocks.filter fun b => strm_type b = "GPS9").mapM decode_gps9 with
    | .error e => .err e
    | .ok segs9 =>
      if segs9.length ≠ 0 then .ok [segs9.flatten]
      else
        match (blocks.filter fun b => strm_type b = "GPS5").mapM decode_gps5 with
        | .error e => .err e
        | .ok segs5 =>
          if segs5.length ≠ 0 then .ok [segs5.flatten]
          else .exited 1

/-- A synthetic KLV record for the tokenizer round-trip: 4 ASCII key
bytes, a nonzero ASCII type byte, an element size, a repeat count and a
payload already padded to ceil4(size * repeat). -/
structure EncTup where
  key : List Nat
  tc : Nat
  size : Nat
  rpt : Nat
  payload : List Nat
deriving DecidableEq

/-- Well-formedness of a synthetic record, matching the wire format:
key and type bytes ASCII, size one byte, repeat two bytes, payload of
exactly the padded physical length. -/
def wfTup (t : EncTup) : Prop :=
  t.key.length = 4 ∧ (∀ b ∈ t.key, b < 128) ∧ 0 < t.tc ∧ t.tc < 128 ∧
    t.size < 256 ∧ t.rpt < 65536 ∧
    t.payload.length = ceil4Nat (t.size * t.rpt)

instance (t : EncTup) : Decidable (wfTup t) := by
  unfold wfTup
  exact inferInstance

/-- Wire encoding of one synthetic record: key, type byte, size byte,
big-endian 16-bit repeat count, padded payload. -/
def encodeTup (t : EncTup) : List Nat :=
  t.key ++ [t.tc, t.size, t.rpt / 256, t.rpt % 256] ++ t.payload

/-- Wire encoding of a record sequence. -/
def encodeTups (ts : List EncTup) : List Nat := (ts.map encodeTup).flatten

/-- The KLVItem the tokenizer is expected to reproduce for one record. -/
def tupItem (t : EncTup) : KLVItem :=
  ⟨t.key, ⟨String.singleton (Char.ofNat t.tc), t.size, t.rpt⟩, t.payload,
    t.key ++ [t.tc, t.size, t.rpt / 256, t.rpt % 256]⟩

theorem ceil4Nat_ge_four (n : Nat) (h : 0 < n) : 4 ≤ ceil4Nat n := by
  have h0 : (0 : Int) ≤ ((n : Int) - 1).fdiv 4 :=
    Int.fdiv_nonneg (by omega) (by omega)
  have h4 : (4 : Int) ≤ ceil4 (n : Int) := by
    unfold ceil4
    linarith
  unfold ceil4Nat
  omega

theorem pop_klm_encode (k0 k1 k2 k3 tc size rpt : Nat)
    (payload rest : List Nat)
    (h0 : k0 < 128) (h1 : k1 < 128) (h2 : k2 < 128) (h3 : k3 < 128)
    (htc0 : 0 < tc) (htc : tc < 128)
    (hpl : payload.length = ceil4Nat (size * rpt)) :
    pop_klm (k0 :: k1 :: k2 :: k3 :: tc :: size :: rpt / 256 :: rpt % 256 ::
        (payload ++ rest)) =
      .ok (⟨[k0, k1, k2, k3],
            ⟨String.singleton (Char.ofNat tc), size, rpt⟩, payload,
            [k0, k1, k2, k3, tc, size, rpt / 256, rpt % 256]⟩, rest) := by
  have hb4 : tc ≠ 0 := by omega
  have hrec : rpt / 256 * 256 + rpt % 256 = rpt := by omega
  simp only [pop_klm, hrec]
  rw [if_pos ⟨h0, h1, h2, h3⟩, if_pos (Or.inr htc)]
  simp only [hb4, if_false]
  rw [← hpl, List.take_left, List.drop_left]
  simp

theorem encodeTup_length (t : EncTup) (h : wfTup t) :
    (encodeTup t).length = 8 + t.payload.length := by
  obtain ⟨hk4, -, -, -, -, -, -⟩ := h
  simp [encodeTup, hk4]
  omega

theorem readAllAux_encodeTups (ts : List EncTup) :
    ∀ (path : String) (fuel i : Nat), (∀ t ∈ ts, wfTup t) →
    (∀ t, ts.getLast? = some t → 0 < t.size * t.rpt) →
    (encodeTups ts).length < fuel →
    readAllAux [] fuel (encodeTups ts) path i =
      .ok (ts.map fun t => (path, tupItem t)) := by
  induction ts with
  | nil =>
    intro path fuel i _ _ hfuel
    match fuel with
    | f + 1 => simp [readAllAux, has_next, encodeTups]
  | cons t ts ih =>
    intro path fuel i hwf hlast hfuel
    have hwt := hwf t (by simp)
    obtain ⟨hk4, hkb, htc0, htc, hsz, hrp, hpl⟩ := hwt
    have henc : encodeTups (t :: ts) = encodeTup t ++ encodeTups ts := by
      simp [encodeTups]
    have hlen_t : (encodeTup t).length = 8 + t.payload.length :=
      encodeTup_length t (hwf t (by simp))
    have hgt8 : 8 < (encodeTups (t :: ts)).length := by
      rw [henc, List.length_append, hlen_t]
      rcases ts with - | ⟨t2, ts2⟩
      · have hp4 : 4 ≤ t.payload.length := by
          rw [hpl]
          exact ceil4Nat_ge_four _ (hlast t (by simp))
        omega
      · have h2 : (encodeTup t2).length = 8 + t2.payload.length :=
          encodeTup_length t2 (hwf t2 (by simp))
        have h3 : (encodeTups (t2 :: ts2)).length ≥ 8 := by
          have h4 : encodeTups (t2 :: ts2) = encodeTup t2 ++ encodeTups ts2 := by
            simp [encodeTups]
          rw [h4, List.length_append]
          omega
        omega
    match fuel with
    | f + 1 =>
      have hfuel2 : (encodeTups ts).length < f := by
        rw [henc, List.length_append] at hfuel
        omega
      rcases t with ⟨key, tc, size, rpt, payload⟩
      rcases key with - | ⟨k0, key⟩
      · simp at hk4
      rcases key with - | ⟨k1, key⟩
      · simp at hk4
      rcases key with - | ⟨k2, key⟩
      · simp at hk4
      rcases key with - | ⟨k3, key⟩
      · simp at hk4
      rcases key with - | ⟨k4, key⟩
      case cons =>
        simp at hk4
      simp only [List.mem_cons, List.not_mem_nil] at hkb
      have hpop := pop_klm_encode k0 k1 k2 k3 tc size rpt payload
        (encodeTups ts) (hkb k0 (by simp)) (hkb k1 (by simp))
        (hkb k2 (by simp)) (hkb k3 (by simp)) htc0 htc hpl
      have hstep : encodeTups (⟨[k0, k1, k2, k3], tc, size, rpt, payload⟩ :: ts) =
          k0 :: k1 :: k2 :: k3 :: tc :: size :: rpt / 256 :: rpt % 256 ::
            (payload ++ encodeTups ts) := by
        simp [encodeTups, encodeTup]
      rw [hstep] at hgt8 ⊢
      have hcond : has_next (k0 :: k1 :: k2 :: k3 :: tc :: size ::
          rpt / 256 :: rpt % 256 :: (payload ++ encodeTups ts)) = true := by
        simp only [has_next, decide_eq_true_eq]
        exact hgt8
      simp only [readAllAux, hcond, if_true, hpop]
      rw [if_neg (by simp)]
      rw [ih path f (i + 1) (fun u hu => hwf u (by simp [hu]))
        (fun u hu => hlast u (by
          rcases ts with - | ⟨t2, ts2⟩
          · simp at hu
          · simpa [List.getLast?_cons_cons] using hu)) hfuel2]
      simp [tupItem]

/-- C1 (amended): tokenizing a well-formed synthetic KLV buffer with an
empty unfold set reproduces the encoded record sequence exactly, provided
the final record has a nonzero logical payload length; and any buffer of
at most 8 remaining bytes terminates iteration cleanly as the empty
sequence. (The source loop guard len(bin) > 8 also drops a trailing
8-byte record whose logical payload length is zero, which is what the
counterexample exhibits.) -/
theorem claim_C1 :
    (∀ (ts : List EncTup) (path : String) (i : Nat),
      (∀ t ∈ ts, wfTup t) →
      (∀ t, ts.getLast? = some t → 0 < t.size * t.rpt) →
      read_all [] (encodeTups ts) path i =
        .ok (ts.map fun t => (path, tupItem t))) ∧
    (∀ (u : List (List Nat)) (data : List Nat) (path : String) (i : Nat),
      data.length ≤ 8 → read_all u data path i = .ok []) := by
  constructor
  · intro ts path i hwf hlast
    exact readAllAux_encodeTups ts path ((encodeTups ts).length + 1) i hwf
      hlast (by omega)
  · intro u data path i hle
    have hn : has_next data = false := by
      simp only [has_next, decide_eq_false_iff_not, not_lt]
      exact hle
    simp [read_all, readAllAux, hn]

/-- The zero-payload record on which the stated round-trip fails: its
encoding is exactly 8 bytes, and the tokenizer stops without yielding
it. -/
def zeroTup : EncTup := ⟨[68, 69, 77, 79], 76, 0, 0, []⟩

/-- C1 counterexample: the 8-byte encoding of a single record with
element_size = repeat_count = 0 tokenizes to the empty sequence, not to
that record. -/
theorem claim_C1_counterexample :
    read_all [] (encodeTups [zeroTup]) "gpmf" 0 ≠
      .ok [("gpmf", tupItem zeroTup)] := by decide

/-- A concrete well-formed record with nonzero payload. -/
def demoTup : EncTup := ⟨[65, 67, 67, 76], 98, 1, 4, [1, 2, 3, 4]⟩

/-- Witness for C1 at a concrete one-record sequence. -/
theorem claim_C1_witness :
    read_all [] (encodeTups [demoTup]) "gpmf" 0 =
      .ok [("gpmf", tupItem demoTup)] := by
  have h := claim_C1.1 [demoTup] "gpmf" 0 (by decide) (by decide)
  simpa using h

/-- C4: a KLV header announcing a padded physical payload longer than the
bytes remaining after the header makes the tokenizer fail with the
truncated-stream error (the assert in pop_klm), and no item is produced
for that record: pop_klm returns no item, and read_all on a buffer
starting with such a record yields the error and no pairs. -/
theorem claim_C4 (b0 b1 b2 b3 b4 b5 b6 b7 : Nat) (rest : List Nat)
    (u : List (List Nat)) (path : String) (i : Nat)
    (h0 : b0 < 128) (h1 : b1 < 128) (h2 : b2 < 128) (h3 : b3 < 128)
    (h4 : b4 < 128)
    (hshort : rest.length < ceil4Nat (b5 * (b6 * 256 + b7))) :
    pop_klm (b0 :: b1 :: b2 :: b3 :: b4 :: b5 :: b6 :: b7 :: rest) =
      .error .truncatedStream ∧
    (rest ≠ [] →
      read_all u (b0 :: b1 :: b2 :: b3 :: b4 :: b5 :: b6 :: b7 :: rest)
        path i = .error .truncatedStream) := by
  have hpop : pop_klm (b0 :: b1 :: b2 :: b3 :: b4 :: b5 :: b6 :: b7 :: rest) =
      .error .truncatedStream := by
    simp only [pop_klm]
    rw [if_pos ⟨h0, h1, h2, h3⟩, if_pos (Or.inr h4)]
    rw [if_neg]
    intro hEq
    rw [List.length_take] at hEq
    omega
  refine ⟨hpop, fun hne => ?_⟩
  have hlen : has_next (b0 :: b1 :: b2 :: b3 :: b4 :: b5 :: b6 :: b7 :: rest) =
      true := by
    have : 0 < rest.length := List.length_pos.mpr hne
    simp only [has_next, decide_eq_true_eq, List.length_cons]
    omega
  simp [read_all, readAllAux, hlen, hpop]

/-- Witness for C4: a header announcing 4 payload bytes followed by only
2 bytes. -/
theorem claim_C4_witness :
    pop_klm [71, 80, 83, 85, 76, 4, 0, 1, 0, 0] =
      .error .truncatedStream ∧
    read_all [] [71, 80, 83, 85, 76, 4, 0, 1, 0, 0] "gpmf" 0 =
      .error .truncatedStream := by
  have h := claim_C4 71 80 83 85 76 4 0 1 [0, 0] [] "gpmf" 0 (by decide)
    (by decide) (by decide) (by decide) (by decide) (by decide)
  exact ⟨h.1, h.2 (by decide)⟩

/-- C5 (amended): decode_from_type yields a string exactly for the type
code U (the whole padded payload, latin-1); for the ten numeric type
codes of TYPE_CONV it yields a big-endian numeric value per the fixed
table (never a string), illustrated by the unsigned and the signed
big-endian readings; and every type code outside the alphabet of U plus
the ten table codes fails with the UnsupportedType error. (The code c is
outside: the source only special-cases U before the table lookup, so c
raises the same KeyError, which the counterexample exhibits.) -/
theorem claim_C5 :
    (∀ item : KLVItem, item.length.type = "U" →
      decode_from_type item = .ok (.str (latin1OfBytes item.value))) ∧
    (TYPE_CONV "d" = some ("float64", "d") ∧
     TYPE_CONV "f" = some ("float32", "f") ∧
     TYPE_CONV "b" = some ("int8", "b") ∧
     TYPE_CONV "B" = some ("uint8", "B") ∧
     TYPE_CONV "s" = some ("int16", "h") ∧
     TYPE_CONV "S" = some ("uint16", "H") ∧
     TYPE_CONV "l" = some ("int32", "i") ∧
     TYPE_CONV "L" = some ("uint32", "I") ∧
     TYPE_CONV "j" = some ("int64", "q") ∧
     TYPE_CONV "J" = some ("uint64", "Q")) ∧
    (∀ (item : KLVItem) (dt st : String),
      TYPE_CONV item.length.type = some (dt, st) →
      item.value.length % stypeWidth st = 0 →
      ∃ v, decode_from_type item = .ok v ∧ ∀ s, v ≠ .str s) ∧
    (∀ (k fc : List Nat) (sz rp b0 b1 b2 b3 : Nat),
      decode_from_type ⟨k, ⟨"L", sz, rp⟩, [b0, b1, b2, b3], fc⟩ =
        .ok (.intScalar (((b0 * 256 + b1) * 256 + b2) * 256 + b3))) ∧
    (∀ (k fc : List Nat) (sz rp b : Nat), 128 ≤ b →
      decode_from_type ⟨k, ⟨"b", sz, rp⟩, [b], fc⟩ =
        .ok (.intScalar ((b : Int) - 256))) ∧
    (∀ item : KLVItem,
      item.length.type ∉
        ["U", "d", "f", "b", "B", "s", "S", "l", "L", "j", "J"] →
      decode_from_type item = .error .unsupportedType) := by
  refine ⟨?_, by decide, ?_, ?_, ?_, ?_⟩
  · intro item h
    simp [decode_from_type, h]
  · intro item dt st hconv hmod
    have hne : item.length.type ≠ "U" := by
      intro hEq
      rw [hEq] at hconv
      simp [TYPE_CONV] at hconv
    simp only [decode_from_type, hne, if_false, hconv, hmod, if_true,
      reduceIte]
    split
    · split
      · exact ⟨_, rfl, by simp⟩
      · exact ⟨_, rfl, by simp⟩
    · split
      · exact ⟨_, rfl, by simp⟩
      · exact ⟨_, rfl, by simp⟩
  · intro k fc sz rp b0 b1 b2 b3
    simp [decode_from_type, TYPE_CONV, stypeWidth, stypeIsFloat,
      stypeSigned, chunksExact, beU, beS]
  · intro k fc sz rp b hb
    have hcmp : ¬ (b < 128) := by omega
    simp [decode_from_type, TYPE_CONV, stypeWidth, stypeIsFloat,
      stypeSigned, chunksExact, beU, beS, hcmp]
  · intro item hmem
    simp only [List.mem_cons, List.mem_singleton, not_or] at hmem
    obtain ⟨hU, hd, hf, hb, hB, hs, hS, hl, hL, hj, hJ⟩ := hmem
    have hnone : TYPE_CONV item.length.type = none := by
      simp [TYPE_CONV, hd, hf, hb, hB, hs, hS, hl, hL, hj, hJ]
    simp [decode_from_type, hU, hnone]

/-- The KLVItem with type code c on which the stated string decoding
fails. -/
def cItem : KLVItem := ⟨keySTNM, ⟨"c", 1, 3⟩, [65, 66, 67, 0], []⟩

/-- C5 counterexample: an item with type code c does not decode to a
string; it fails with the UnsupportedType error (the TYPE_CONV
KeyError). -/
theorem claim_C5_counterexample :
    decode_from_type cItem = .error .unsupportedType := by decide

/-- Witness for C5 at a concrete uint32 payload: big-endian reading. -/
theorem claim_C5_witness :
    decode_from_type ⟨keySCAL, ⟨"L", 4, 1⟩, [1, 2, 3, 4], []⟩ =
      .ok (.intScalar 16909060) := by
  have h := claim_C5.2.2.2.1 keySCAL [] 4 1 1 2 3 4
  simpa using h

/-- C8: _build_gpx_point replaces a latitude outside [-90, 90] by 0.0 and
a longitude outside [-180, 180] by 0.0, emits a diagnostic exactly when a
replacement happened, and still builds the point whenever the fix code is
valid; consequently both decoder loops produce exactly one point per
decoded sample row, whatever the coordinates were. -/
theorem claim_C8 :
    (∀ (name unit gpsa : String) (idx : Nat)
      (lat lng elv dop v2 v3 fix : ℚ) (t : Int),
      (pyTrunc fix = 0 ∨ pyTrunc fix = 2 ∨ pyTrunc fix = 3) →
      ∃ pt diags,
        buildGpxPoint name unit gpsa idx lat lng elv dop v2 v3 fix t =
          .ok (pt, diags) ∧
        pt.latitude = (if 90 < lat ∨ lat < -90 then 0 else lat) ∧
        pt.longitude = (if 180 < lng ∨ lng < -180 then 0 else lng) ∧
        (diags ≠ [] ↔
          (90 < lat ∨ lat < -90 ∨ 180 < lng ∨ lng < -180))) ∧
    (∀ (stnm unit gpsa : String) (gpsp : ℚ) (gpsf : Int) (gpsu : Int)
      (i : Nat) (rows : List (List ℚ)) (pts : List GPXTrackPoint),
      gps5PointsGo stnm unit gpsa gpsp gpsf gpsu i rows = .ok pts →
      pts.length = rows.length) ∧
    (∀ (stnm unit gpsa : String) (i : Nat) (rows : List (List ℚ))
      (pts : List GPXTrackPoint),
      gps9PointsGo stnm unit gpsa i rows = .ok pts →
      pts.length = rows.length) := by
  refine ⟨?_, ?_, ?_⟩
  · intro name unit gpsa idx lat lng elv dop v2 v3 fix t hfix
    have hsome : ∃ fs, FIX_TYPE (pyTrunc fix) = some fs := by
      rcases hfix with h | h | h <;> rw [h] <;> exact ⟨_, rfl⟩
    obtain ⟨fs, hfs⟩ := hsome
    simp only [buildGpxPoint, hfs]
    refine ⟨_, _, rfl, rfl, rfl, ?_⟩
    by_cases hla : 90 < lat ∨ lat < -90 <;>
      by_cases hlo : 180 < lng ∨ lng < -180 <;>
      simp [hla, hlo]
  · intro stnm unit gpsa gpsp gpsf gpsu i rows
    induction rows generalizing i with
    | nil =>
      intro pts h
      simp only [gps5PointsGo, Except.ok.injEq] at h
      subst h
      rfl
    | cons row rows ih =>
      intro pts h
      simp only [gps5PointsGo] at h
      by_cases h5 : row.length < 5
      · rw [if_pos h5] at h
        cases h
      · rw [if_neg h5] at h
        cases hb : buildGpxPoint stnm unit gpsa i (row.getD 0 0)
            (row.getD 1 0) (row.getD 2 0) gpsp (row.getD 3 0) (row.getD 4 0)
            (gpsf : ℚ) (gpsu + sampleTimeMicros * i) with
        | error e =>
          rw [hb] at h
          cases h
        | ok pr =>
          obtain ⟨pt, dg⟩ := pr
          rw [hb] at h
          cases hgo : gps5PointsGo stnm unit gpsa gpsp gpsf gpsu (i + 1)
              rows with
          | error e =>
            rw [hgo] at h
            cases h
          | ok rest =>
            rw [hgo] at h
            simp only [Except.ok.injEq] at h
            subst h
            simp [ih (i + 1) rest hgo]
  · intro stnm unit gpsa i rows
    induction rows generalizing i with
    | nil =>
      intro pts h
      simp only [gps9PointsGo, Except.ok.injEq] at h
      subst h
      rfl
    | cons row rows ih =>
      intro pts h
      simp only [gps9PointsGo] at h
      by_cases h9 : row.length < 9
      · rw [if_pos h9] at h
        cases h
      · rw [if_neg h9] at h
        cases hb : buildGpxPoint stnm unit gpsa i (row.getD 0 0)
            (row.getD 1 0) (row.getD 2 0) (row.getD 7 0) (row.getD 3 0)
            (row.getD 4 0) (row.getD 8 0)
            (gps9SampleTimeMicros (row.getD 5 0) (row.getD 6 0)) with
        | error e =>
          rw [hb] at h
          cases h
        | ok pr =>
          obtain ⟨pt, dg⟩ := pr
          rw [hb] at h
          cases hgo : gps9PointsGo stnm unit gpsa (i + 1) rows with
          | error e =>
            rw [hgo] at h
            cases h
          | ok rest =>
            rw [hgo] at h
            simp only [Except.ok.injEq] at h
            subst h
            simp [ih (i + 1) rest hgo]

/-- Witness for C8: a sample with latitude 95.0 is emitted with latitude
0.0, an untouched longitude, and a diagnostic. -/
theorem claim_C8_witness :
    ∃ pt diags,
      buildGpxPoint "GPS" "deg" "MSLV" 0 95 10 0 1 0 0 3 0 =
        .ok (pt, diags) ∧
      pt.latitude = 0 ∧ pt.longitude = 10 ∧ diags ≠ [] := by
  obtain ⟨pt, dg, hok, hlat, hlng, hdg⟩ :=
    claim_C8.1 "GPS" "deg" "MSLV" 0 95 10 0 1 0 0 3 0
      (by norm_num [pyTrunc])
  refine ⟨pt, dg, hok, ?_, ?_, hdg.mpr (by norm_num)⟩
  · rw [hlat]
    norm_num
  · rw [hlng]
    norm_num

theorem gps5PointsGo_time (stnm unit gpsa : String) (gpsp : ℚ) (gpsf : Int)
    (gpsu : Int) (rows : List (List ℚ)) :
    ∀ (j : Nat) (pts : List GPXTrackPoint),
    gps5PointsGo stnm unit gpsa gpsp gpsf gpsu j rows = .ok pts →
    ∀ (i : Nat) (h : i < pts.length),
      (pts.get ⟨i, h⟩).time = gpsu + sampleTimeMicros * (j + i) := by
  induction rows with
  | nil =>
    intro j pts h i hi
    simp only [gps5PointsGo, Except.ok.injEq] at h
    subst h
    simp at hi
  | cons row rows ih =>
    intro j pts h i hi
    simp only [gps5PointsGo] at h
    by_cases h5 : row.length < 5
    · rw [if_pos h5] at h
      cases h
    · rw [if_neg h5] at h
      cases hb : buildGpxPoint stnm unit gpsa j (row.getD 0 0)
          (row.getD 1 0) (row.getD 2 0) gpsp (row.getD 3 0) (row.getD 4 0)
          (gpsf : ℚ) (gpsu + sampleTimeMicros * j) with
      | error e =>
        rw [hb] at h
        cases h
      | ok pr =>
        obtain ⟨pt, dg⟩ := pr
        rw [hb] at h
        cases hgo : gps5PointsGo stnm unit gpsa gpsp gpsf gpsu (j + 1)
            rows with
        | error e =>
          rw [hgo] at h
          cases h
        | ok rest =>
          rw [hgo] at h
          simp only [Except.ok.injEq] at h
          subst h
          match i with
          | 0 =>
            have hpt : pt.time = gpsu + sampleTimeMicros * j := by
              simp only [buildGpxPoint] at hb
              split at hb
              · cases hb
              · simp only [Except.ok.injEq, Prod.mk.injEq] at hb
                rw [← hb.1]
            simpa using hpt
          | i + 1 =>
            have hrec := ih (j + 1) rest hgo i (by simpa using hi)
            simp only [List.get_cons_succ] at *
            rw [hrec]
            push_cast
            ring

/-- C2 (amended): in the decode_gps5 sample loop, the point at index i is
time-stamped GPSU plus i times the microsecond value of
timedelta(seconds=1.0/18.), which is 55556 microseconds, not exactly
i/18 seconds: the datetime module rounds the step to whole microseconds
once, before it is multiplied. In particular index 18 lands 1.000008
seconds after GPSU, as the counterexample shows on a concrete block with
GPSU = 2023-01-01T00:00:00. -/
theorem claim_C2 :
    sampleTimeMicros = 55556 ∧
    (∀ (stnm unit gpsa : String) (gpsp : ℚ) (gpsf : Int) (gpsu : Int)
      (rows : List (List ℚ)) (pts : List GPXTrackPoint),
      gps5Points stnm unit gpsa gpsp gpsf gpsu rows = .ok pts →
      ∀ (i : Nat) (h : i < pts.length),
        (pts.get ⟨i, h⟩).time = gpsu + 55556 * i) := by
  refine ⟨sampleTimeMicros_eq, ?_⟩
  intro stnm unit gpsa gpsp gpsf gpsu rows pts h i hi
  have := gps5PointsGo_time stnm unit gpsa gpsp gpsf gpsu rows 0 pts h i hi
  rw [this, sampleTimeMicros_eq]
  simp

/-- The GPS5 block of the C2 counterexample: GPSU = "230101000000.000"
(2023-01-01T00:00:00), SCAL all ones, 19 all-zero samples, fix 3. -/
def c2Block : Strm :=
  [ (keySTMP, ⟨keySTMP, ⟨"L", 4, 1⟩, [0, 0, 0, 0], []⟩),
    (keyTSMP, ⟨keyTSMP, ⟨"L", 4, 1⟩, [0, 0, 0, 0], []⟩),
    (keySTNM, ⟨keySTNM, ⟨"c", 3, 1⟩, [71, 80, 83, 0], []⟩),
    (keyUNIT, ⟨keyUNIT, ⟨"c", 3, 1⟩, [100, 101, 103, 0], []⟩),
    (keyGPSU, ⟨keyGPSU, ⟨"U", 16, 1⟩,
      [50, 51, 48, 49, 48, 49, 48, 48, 48, 48, 48, 48, 46, 48, 48, 48], []⟩),
    (keyGPSP, ⟨keyGPSP, ⟨"S", 2, 1⟩, [0, 100, 0, 0], []⟩),
    (keyGPSF, ⟨keyGPSF, ⟨"L", 4, 1⟩, [0, 0, 0, 3], []⟩),
    (keyGPSA, ⟨keyGPSA, ⟨"c", 4, 1⟩, [77, 83, 76, 86], []⟩),
    (keySCAL, ⟨keySCAL, ⟨"l", 4, 5⟩,
      [0, 0, 0, 1, 0, 0, 0, 1, 0, 0, 0, 1, 0, 0, 0, 1, 0, 0, 0, 1], []⟩),
    (keyGPS5, ⟨keyGPS5, ⟨String.singleton (Char.ofNat 108), 20, 19⟩,
      List.replicate 380 0, []⟩) ]

set_option maxHeartbeats 2000000 in
/-- C2 counterexample: on a concrete GPS5 block whose GPSU parses to
2023-01-01T00:00:00, the sample at index 18 is time-stamped
2023-01-01T00:00:01.000008, not exactly 2023-01-01T00:00:01. -/
theorem claim_C2_counterexample :
    (decode_gps5 c2Block).map (fun pts => (pts.getD 18 default).time) =
      .ok (civilMicros 2023 1 1 0 0 1 8) ∧
    civilMicros 2023 1 1 0 0 1 8 ≠ civilMicros 2023 1 1 0 0 1 0 := by
  constructor
  · norm_num +decide [decode_gps5, req, dget, hasKey, keySTMP, keyTSMP,
      keySTNM, keyUNIT, keyGPSU, keyGPSP, keyGPSF, keyGPSA, keySCAL,
      keyGPS5, keyEMPT, c2Block, decode_from_type, TYPE_CONV, stypeWidth,
      stypeSigned, stypeIsFloat, chunksExact, beU, beS, latin1OfBytes,
      latin1Take, pyIntOf, index0, strptimeYmdHMSf, digitsVal, digitVal,
      daysInMonth, isLeapYear, gpsaOf, i32ListOf, matDiv, gps5Points,
      gps5PointsGo, buildGpxPoint, pyTrunc, FIX_TYPE, sampleTimeMicros_eq,
      Except.map, bind, Except.bind, civilMicros, daysFromCivil,
      List.replicate]
  · decide

/-- Witness for C2 at a concrete one-sample loop run. -/
theorem claim_C2_witness :
    ∃ (pts : List GPXTrackPoint),
      gps5Points "GPS" "deg" "MSLV" 1 3 0 [[0, 0, 0, 0, 0]] = .ok pts ∧
      ∃ h : 0 < pts.length, (pts.get ⟨0, h⟩).time = 0 := by
  have hok : gps5Points "GPS" "deg" "MSLV" 1 3 0 [[0, 0, 0, 0, 0]] =
      .ok [⟨0, 0, 0, 0, "unit<deg> gpsa<MSLV>", 1, "GPS", "3d", 0, 0⟩] := by
    norm_num +decide [gps5Points, gps5PointsGo, buildGpxPoint, pyTrunc,
      FIX_TYPE, sampleTimeMicros_eq]
  refine ⟨_, hok, by simp, ?_⟩
  have h := claim_C2.2 "GPS" "deg" "MSLV" 1 3 0 [[0, 0, 0, 0, 0]] _ hok 0
    (by simp)
  simpa using h

theorem roundHalfEven_intCast (n : Int) : roundHalfEven (n : ℚ) = n := by
  unfold roundHalfEven
  rw [Int.floor_intCast]
  norm_num

theorem gps9SampleTime_int (d s : Int) :
    gps9SampleTimeMicros (d : ℚ) (s : ℚ) = (d * 86400 + s) * 1000000 := by
  unfold gps9SampleTimeMicros tdDaysMicros tdSecondsMicros
  have h1 : ((d : ℚ) * 86400000000) = ((d * 86400000000 : Int) : ℚ) := by
    push_cast
    ring
  have h2 : ((s : ℚ) * 1000000) = ((s * 1000000 : Int) : ℚ) := by
    push_cast
    ring
  rw [h1, h2, roundHalfEven_intCast, roundHalfEven_intCast]
  have h0 : civilMicros 2000 1 1 0 0 0 0 = 0 := by decide
  rw [h0]
  ring

theorem gps9PointsGo_time (stnm unit gpsa : String) (rows : List (List ℚ)) :
    ∀ (j : Nat) (pts : List GPXTrackPoint),
    gps9PointsGo stnm unit gpsa j rows = .ok pts →
    ∀ (i : Nat) (h : i < pts.length),
      (pts.get ⟨i, h⟩).time =
        gps9SampleTimeMicros ((rows.getD i []).getD 5 0)
          ((rows.getD i []).getD 6 0) := by
  induction rows with
  | nil =>
    intro j pts h i hi
    simp only [gps9PointsGo, Except.ok.injEq] at h
    subst h
    simp at hi
  | cons row rows ih =>
    intro j pts h i hi
    simp only [gps9PointsGo] at h
    by_cases h9 : row.length < 9
    · rw [if_pos h9] at h
      cases h
    · rw [if_neg h9] at h
      cases hb : buildGpxPoint stnm unit gpsa j (row.getD 0 0)
          (row.getD 1 0) (row.getD 2 0) (row.getD 7 0) (row.getD 3 0)
          (row.getD 4 0) (row.getD 8 0)
          (gps9SampleTimeMicros (row.getD 5 0) (row.getD 6 0)) with
      | error e =>
        rw [hb] at h
        cases h
      | ok pr =>
        obtain ⟨pt, dg⟩ := pr
        rw [hb] at h
        cases hgo : gps9PointsGo stnm unit gpsa (j + 1) rows with
        | error e =>
          rw [hgo] at h
          cases h
        | ok rest =>
          rw [hgo] at h
          simp only [Except.ok.injEq] at h
          subst h
          match i with
          | 0 =>
            have hpt : pt.time =
                gps9SampleTimeMicros (row.getD 5 0) (row.getD 6 0) := by
              simp only [buildGpxPoint] at hb
              split at hb
              · cases hb
              · simp only [Except.ok.injEq, Prod.mk.injEq] at hb
                rw [← hb.1]
            simpa using hpt
          | i + 1 =>
            have hrec := ih (j + 1) rest hgo i (by simpa using hi)
            simp only [List.get_cons_succ] at *
            simpa using hrec

/-- C7: in the decode_gps9 sample loop, every point is time-stamped with
the epoch 2000-01-01T00:00:00 plus the scaled column 5 as days plus the
scaled column 6 as seconds (each timedelta rounded to whole microseconds,
exact on integer values), with no time-zone offset in the model; in
particular integer days d and seconds s give (d * 86400 + s) seconds
after the epoch, days = 0, seconds = 0 give 2000-01-01T00:00:00 and
days = 1 gives 2000-01-02T00:00:00. -/
theorem claim_C7 :
    (∀ (stnm unit gpsa : String) (rows : List (List ℚ))
      (pts : List GPXTrackPoint),
      gps9Points stnm unit gpsa rows = .ok pts →
      ∀ (i : Nat) (h : i < pts.length),
        (pts.get ⟨i, h⟩).time =
          gps9SampleTimeMicros ((rows.getD i []).getD 5 0)
            ((rows.getD i []).getD 6 0)) ∧
    (∀ d s : Int, gps9SampleTimeMicros (d : ℚ) (s : ℚ) =
      civilMicros 2000 1 1 0 0 0 0 + (d * 86400 + s) * 1000000) ∧
    gps9SampleTimeMicros 0 0 = civilMicros 2000 1 1 0 0 0 0 ∧
    gps9SampleTimeMicros 1 0 = civilMicros 2000 1 2 0 0 0 0 := by
  have h0 : civilMicros 2000 1 1 0 0 0 0 = 0 := by decide
  refine ⟨?_, ?_, ?_, ?_⟩
  · intro stnm unit gpsa rows pts h i hi
    exact gps9PointsGo_time stnm unit gpsa rows 0 pts h i hi
  · intro d s
    rw [gps9SampleTime_int, h0]
    ring
  · have h := gps9SampleTime_int 0 0
    rw [h0]
    simpa using h
  · have h := gps9SampleTime_int 1 0
    have h1 : civilMicros 2000 1 2 0 0 0 0 = 86400000000 := by decide
    rw [h1]
    simpa using h

/-- Witness for C7 at a concrete one-sample loop run. -/
theorem claim_C7_witness :
    ∃ (pts : List GPXTrackPoint),
      gps9Points "GPS" "deg" "MSLV" [[0, 0, 0, 0, 0, 0, 0, 0, 0]] =
        .ok pts ∧
      ∃ h : 0 < pts.length,
        (pts.get ⟨0, h⟩).time = civilMicros 2000 1 1 0 0 0 0 := by
  have hok : gps9Points "GPS" "deg" "MSLV" [[0, 0, 0, 0, 0, 0, 0, 0, 0]] =
      .ok [⟨0, 0, 0, gps9SampleTimeMicros 0 0, "unit<deg> gpsa<MSLV>", 0,
        "GPS", "none", 0, 0⟩] := by
    norm_num +decide [gps9Points, gps9PointsGo, buildGpxPoint, pyTrunc,
      FIX_TYPE]
  refine ⟨_, hok, by simp, ?_⟩
  have h := claim_C7.1 "GPS" "deg" "MSLV" [[0, 0, 0, 0, 0, 0, 0, 0, 0]] _
    hok 0 (by simp)
  rw [h]
  simpa using claim_C7.2.2.1

theorem exceptBind_ok {α β : Type} {x : Except PyErr α}
    {f : α → Except PyErr β} {b : β} (h : (x >>= f) = .ok b) :
    ∃ a, x = .ok a ∧ f a = .ok b := by
  cases x with
  | error e => simp [Bind.bind, Except.bind] at h
  | ok a =>
    refine ⟨a, rfl, ?_⟩
    simpa [Bind.bind, Except.bind] using h

theorem dget_foldl_some (k : List Nat) (it : KLVItem) :
    ∀ (strm : Strm) (acc : Option KLVItem),
    List.foldl (fun acc kv => if kv.1 = k then some kv.2 else acc) acc strm =
      some it →
    (∃ kv ∈ strm, kv.1 = k) ∨ acc = some it := by
  intro strm
  induction strm with
  | nil =>
    intro acc h
    exact Or.inr h
  | cons kv rest ih =>
    intro acc h
    simp only [List.foldl_cons] at h
    rcases ih _ h with h2 | h2
    · obtain ⟨kv2, hm, hk⟩ := h2
      exact Or.inl ⟨kv2, by simp [hm], hk⟩
    · by_cases hkv : kv.1 = k
      · exact Or.inl ⟨kv, by simp, hkv⟩
      · rw [if_neg hkv] at h2
        exact Or.inr h2

theorem req_ok_hasKey (strm : Strm) (k : List Nat) (it : KLVItem)
    (h : req strm k = .ok it) : hasKey strm k = true := by
  unfold req at h
  cases hd : dget strm k with
  | none => rw [hd] at h; cases h
  | some v =>
    unfold dget at hd
    rcases dget_foldl_some k v strm none hd with h2 | h2
    · obtain ⟨kv, hm, hk⟩ := h2
      simp only [hasKey, List.any_eq_true]
      exact ⟨kv, hm, by simp [hk]⟩
    · cases h2

theorem decode_gps5_ok_keys (strm : Strm) (pts : List GPXTrackPoint)
    (hE : hasKey strm keyEMPT = false) (h : decode_gps5 strm = .ok pts) :
    hasKey strm keySTMP = true ∧ hasKey strm keyTSMP = true ∧
    hasKey strm keySTNM = true ∧ hasKey strm keyUNIT = true ∧
    hasKey strm keyGPSU = true ∧ hasKey strm keyGPSP = true ∧
    hasKey strm keyGPSF = true ∧ hasKey strm keyGPSA = true ∧
    hasKey strm keySCAL = true ∧ hasKey strm keyGPS5 = true := by
  unfold decode_gps5 at h
  rw [hE] at h
  simp only [Bool.false_eq_true, if_false] at h
  obtain ⟨stmpI, hSTMP, h⟩ := exceptBind_ok h
  obtain ⟨stmpV, -, h⟩ := exceptBind_ok h
  obtain ⟨-, -, h⟩ := exceptBind_ok h
  obtain ⟨tsmpI, hTSMP, h⟩ := exceptBind_ok h
  obtain ⟨tsmpV, -, h⟩ := exceptBind_ok h
  obtain ⟨-, -, h⟩ := exceptBind_ok h
  obtain ⟨stnmI, hSTNM, h⟩ := exceptBind_ok h
  obtain ⟨unitI, hUNIT, h⟩ := exceptBind_ok h
  obtain ⟨gpsuI, hGPSU, h⟩ := exceptBind_ok h
  obtain ⟨gpsuV, -, h⟩ := exceptBind_ok h
  cases gpsuV with
  | intScalar n =>
    obtain ⟨gpsu, hg, -⟩ := exceptBind_ok h
    cases hg
  | intArr ns =>
    obtain ⟨gpsu, hg, -⟩ := exceptBind_ok h
    cases hg
  | floatScalar w b =>
    obtain ⟨gpsu, hg, -⟩ := exceptBind_ok h
    cases hg
  | floatArr w b =>
    obtain ⟨gpsu, hg, -⟩ := exceptBind_ok h
    cases hg
  | str s =>
    obtain ⟨gpsu, -, h⟩ := exceptBind_ok h
    obtain ⟨gpspI, hGPSP, h⟩ := exceptBind_ok h
    obtain ⟨gpspV, -, h⟩ := exceptBind_ok h
    obtain ⟨gpsp0, -, h⟩ := exceptBind_ok h
    obtain ⟨gpsfI, hGPSF, h⟩ := exceptBind_ok h
    obtain ⟨gpsfV, -, h⟩ := exceptBind_ok h
    obtain ⟨gpsf, -, h⟩ := exceptBind_ok h
    obtain ⟨gpsaI, hGPSA, h⟩ := exceptBind_ok h
    obtain ⟨gpsa, -, h⟩ := exceptBind_ok h
    obtain ⟨scalI, hSCAL, h⟩ := exceptBind_ok h
    obtain ⟨scal, -, h⟩ := exceptBind_ok h
    obtain ⟨g5I, hGPS5, h⟩ := exceptBind_ok h
    exact ⟨req_ok_hasKey _ _ _ hSTMP, req_ok_hasKey _ _ _ hTSMP,
      req_ok_hasKey _ _ _ hSTNM, req_ok_hasKey _ _ _ hUNIT,
      req_ok_hasKey _ _ _ hGPSU, req_ok_hasKey _ _ _ hGPSP,
      req_ok_hasKey _ _ _ hGPSF, req_ok_hasKey _ _ _ hGPSA,
      req_ok_hasKey _ _ _ hSCAL, req_ok_hasKey _ _ _ hGPS5⟩

theorem decode_gps9_ok_keys (strm : Strm) (pts : List GPXTrackPoint)
    (h : decode_gps9 strm = .ok pts) :
    hasKey strm keySTMP = true ∧ hasKey strm keyTSMP = true ∧
    hasKey strm keySTNM = true ∧ hasKey strm keyUNIT = true ∧
    hasKey strm keyTYPE = true ∧ hasKey strm keyGPSA = true ∧
    hasKey strm keySCAL = true ∧ hasKey strm keyGPS9 = true := by
  unfold decode_gps9 at h
  obtain ⟨stmpI, hSTMP, h⟩ := exceptBind_ok h
  obtain ⟨stmpV, hv1, h⟩ := exceptBind_ok h
  obtain ⟨n1, hn1, h⟩ := exceptBind_ok h
  obtain ⟨tsmpI, hTSMP, h⟩ := exceptBind_ok h
  obtain ⟨tsmpV, hv2, h⟩ := exceptBind_ok h
  obtain ⟨n2, hn2, h⟩ := exceptBind_ok h
  obtain ⟨stnmI, hSTNM, h⟩ := exceptBind_ok h
  obtain ⟨unitI, hUNIT, h⟩ := exceptBind_ok h
  obtain ⟨typeI, hTYPE, h⟩ := exceptBind_ok h
  obtain ⟨gpsaI, hGPSA, h⟩ := exceptBind_ok h
  obtain ⟨gpsa, hv3, h⟩ := exceptBind_ok h
  obtain ⟨scalI, hSCAL, h⟩ := exceptBind_ok h
  obtain ⟨scal, hv4, h⟩ := exceptBind_ok h
  obtain ⟨g9I, hGPS9, h⟩ := exceptBind_ok h
  exact ⟨req_ok_hasKey _ _ _ hSTMP, req_ok_hasKey _ _ _ hTSMP,
    req_ok_hasKey _ _ _ hSTNM, req_ok_hasKey _ _ _ hUNIT,
    req_ok_hasKey _ _ _ hTYPE, req_ok_hasKey _ _ _ hGPSA,
    req_ok_hasKey _ _ _ hSCAL, req_ok_hasKey _ _ _ hGPS9⟩

/-- C9: a positional block missing a key its variant requires cannot
decode successfully (the first missing lookup returns None and raising
follows, the failure the spec names MissingRequiredField), with the one
exception that a GPS5 block carrying an EMPT marker decodes to the empty
segment before any key is read. The required keys checked are the
spec-listed common keys STNM, UNIT, SCAL, GPSA plus GPSU, GPSP, GPSF,
GPS5 for the GPS5 variant and TYPE, GPS9 for the GPS9 variant. -/
theorem claim_C9 :
    (∀ (strm : Strm) (k : List Nat),
      k ∈ [keySTNM, keyUNIT, keySCAL, keyGPSA, keyGPSU, keyGPSP, keyGPSF,
        keyGPS5] →
      hasKey strm k = false → hasKey strm keyEMPT = false →
      ∀ pts, decode_gps5 strm ≠ .ok pts) ∧
    (∀ (strm : Strm) (k : List Nat),
      k ∈ [keySTNM, keyUNIT, keySCAL, keyGPSA, keyTYPE, keyGPS9] →
      hasKey strm k = false →
      ∀ pts, decode_gps9 strm ≠ .ok pts) ∧
    (∀ strm : Strm, hasKey strm keyEMPT = true →
      decode_gps5 strm = .ok []) := by
  refine ⟨?_, ?_, ?_⟩
  · intro strm k hk hmiss hE pts h
    obtain ⟨h1, h2, h3, h4, h5, h6, h7, h8, h9, h10⟩ :=
      decode_gps5_ok_keys strm pts hE h
    simp only [List.mem_cons, List.not_mem_nil, or_false] at hk
    rcases hk with rfl | rfl | rfl | rfl | rfl | rfl | rfl | rfl <;> simp_all
  · intro strm k hk hmiss pts h
    obtain ⟨h1, h2, h3, h4, h5, h6, h7, h8⟩ :=
      decode_gps9_ok_keys strm pts h
    simp only [List.mem_cons, List.not_mem_nil, or_false] at hk
    rcases hk with rfl | rfl | rfl | rfl | rfl | rfl <;> simp_all
  · intro strm hE
    simp [decode_gps5, hE]

/-- Witness for C9: the empty block fails both decoders, and a block
carrying only EMPT decodes to the empty segment. -/
theorem claim_C9_witness :
    decode_gps5 [] ≠ .ok [] ∧ decode_gps9 [] ≠ .ok [] ∧
    decode_gps5 [(keyEMPT, ⟨keyEMPT, ⟨"B", 1, 0⟩, [], []⟩)] = .ok [] := by
  exact ⟨claim_C9.1 [] keySTNM (by decide) (by decide) (by decide) [],
    claim_C9.2.1 [] keySTNM (by decide) (by decide) [],
    claim_C9.2.2 _ (by decide)⟩

/-- C10 (implicit): both decoders read STMP and TSMP unconditionally, so
a positional block missing either cannot decode successfully, although
the spec does not list them among required keys; the only escape is a
GPS5 block carrying the EMPT marker, which decodes to the empty segment
even without STMP and TSMP. -/
theorem claim_C10 :
    (∀ (strm : Strm) (pts : List GPXTrackPoint),
      hasKey strm keySTMP = false → decode_gps9 strm ≠ .ok pts) ∧
    (∀ (strm : Strm) (pts : List GPXTrackPoint),
      hasKey strm keyTSMP = false → decode_gps9 strm ≠ .ok pts) ∧
    (∀ (strm : Strm) (pts : List GPXTrackPoint),
      hasKey strm keySTMP = false → hasKey strm keyEMPT = false →
      decode_gps5 strm ≠ .ok pts) ∧
    (∀ (strm : Strm) (pts : List GPXTrackPoint),
      hasKey strm keyTSMP = false → hasKey strm keyEMPT = false →
      decode_gps5 strm ≠ .ok pts) ∧
    (∀ strm : Strm, hasKey strm keyEMPT = true →
      hasKey strm keySTMP = false → hasKey strm keyTSMP = false →
      decode_gps5 strm = .ok []) := by
  refine ⟨?_, ?_, ?_, ?_, ?_⟩
  · intro strm pts hm h
    exact absurd (decode_gps9_ok_keys strm pts h).1 (by simp [hm])
  · intro strm pts hm h
    exact absurd (decode_gps9_ok_keys strm pts h).2.1 (by simp [hm])
  · intro strm pts hm hE h
    exact absurd (decode_gps5_ok_keys strm pts hE h).1 (by simp [hm])
  · intro strm pts hm hE h
    exact absurd (decode_gps5_ok_keys strm pts hE h).2.1 (by simp [hm])
  · intro strm hE hm1 hm2
    simp [decode_gps5, hE]

/-- Witness for C10: a block with every spec-required GPS9 key but no
STMP still fails, and an EMPT block without STMP and TSMP decodes
empty. -/
theorem claim_C10_witness :
    decode_gps9 [(keyGPS9, ⟨keyGPS9, ⟨String.singleton (Char.ofNat 108),
      4, 0⟩, [], []⟩)] ≠ .ok [] ∧
    decode_gps5 [(keyEMPT, ⟨keyEMPT, ⟨"B", 1, 0⟩, [], []⟩)] = .ok [] := by
  exact ⟨claim_C10.1 _ [] (by decide),
    claim_C10.2.2.2.2 _ (by decide) (by decide) (by decide)⟩

theorem exceptMapM_length {α β : Type} (f : α → Except PyErr β) :
    ∀ (l : List α) (l2 : List β), l.mapM f = .ok l2 → l2.length = l.length := by
  intro l
  induction l with
  | nil =>
    intro l2 h
    simp only [List.mapM_nil, pure, Except.pure, Except.ok.injEq] at h
    subst h
    rfl
  | cons a l ih =>
    intro l2 h
    rw [List.mapM_cons] at h
    obtain ⟨b, hb, h⟩ := exceptBind_ok h
    obtain ⟨bs, hbs, h⟩ := exceptBind_ok h
    simp only [pure, Except.pure, Except.ok.injEq] at h
    subst h
    simp [ih bs hbs]

/-- C6: whenever any assembled block of the input carries a GPS9 key, the
whole result of gpmf2gpx is computed from the GPS9-classified blocks
alone - their decoded segments merged in block order, or the first
exception one of them raises - and the GPS5 blocks are never consulted. -/
theorem claim_C6 :
    ∀ (data : List Nat) (pairs : List (String × KLVItem)),
    read_all [keyDEVC, keySTRM] data "gpmf" 0 = .ok pairs →
    (∃ b ∈ (groupBlocks pairs).map (fun e => e.2), hasKey b keyGPS9 = true) →
    gpmf2gpx data =
      (match ((groupBlocks pairs).map (fun e => e.2)).filter
          (fun b => strm_type b = "GPS9") |>.mapM decode_gps9 with
        | .error e => GpxOutcome.err e
        | .ok segs => GpxOutcome.ok [segs.flatten]) := by
  intro data pairs hread hex
  unfold gpmf2gpx
  rw [hread]
  obtain ⟨b, hb, hgps9⟩ := hex
  have hbtype : strm_type b = "GPS9" := by simp [strm_type, hgps9]
  have hmem : b ∈ ((groupBlocks pairs).map (fun e => e.2)).filter
      (fun b => strm_type b = "GPS9") := by
    simp only [List.mem_filter]
    exact ⟨hb, by simp [hbtype]⟩
  cases hm : (((groupBlocks pairs).map (fun e => e.2)).filter
      (fun b => strm_type b = "GPS9")).mapM decode_gps9 with
  | error e => simp only [hm]
  | ok segs =>
    have hlen : segs.length = (((groupBlocks pairs).map (fun e => e.2)).filter
        (fun b => strm_type b = "GPS9")).length :=
      exceptMapM_length _ _ _ hm
    have hne : segs.length ≠ 0 := by
      rw [hlen]
      intro hc
      rw [List.length_eq_zero] at hc
      rw [hc] at hmem
      simp at hmem
    simp only [hm]
    rw [if_pos hne]

/-- Witness for C6: a buffer with one GPS9-keyed block; the result is the
GPS9 decode outcome (here a missing-key failure), computed without ever
looking at GPS5 blocks. -/
theorem claim_C6_witness :
    gpmf2gpx [71, 80, 83, 57, 76, 4, 0, 1, 0, 0, 0, 0] =
      .err .missingRequiredField := by
  have hread : read_all [keyDEVC, keySTRM]
      [71, 80, 83, 57, 76, 4, 0, 1, 0, 0, 0, 0] "gpmf" 0 =
      .ok [("gpmf", ⟨keyGPS9, ⟨String.singleton (Char.ofNat 76), 4, 1⟩,
        [0, 0, 0, 0], [71, 80, 83, 57, 76, 4, 0, 1]⟩)] := by decide
  have h := claim_C6 _ _ hread (by decide)
  rw [h]
  decide

/-- C3 (amended): when no assembled block of the buffer carries a GPS9 or
a GPS5 key, gpmf2gpx does not return an error value to the caller: it
terminates the host process through exit(1) after logging a warning
(there is no NoPositionalStreamFound error value in the code), modelled
as the distinct outcome exited 1. -/
theorem claim_C3 :
    ∀ (data : List Nat) (pairs : List (String × KLVItem)),
    read_all [keyDEVC, keySTRM] data "gpmf" 0 = .ok pairs →
    (∀ b ∈ (groupBlocks pairs).map (fun e => e.2),
      hasKey b keyGPS9 = false ∧ hasKey b keyGPS5 = false) →
    gpmf2gpx data = .exited 1 := by
  intro data pairs hread hnone
  unfold gpmf2gpx
  rw [hread]
  have h9 : ((groupBlocks pairs).map (fun e => e.2)).filter
      (fun b => strm_type b = "GPS9") = [] := by
    rw [List.filter_eq_nil_iff]
    intro b hb
    have hB := hnone b hb
    simp [strm_type, hB.1, hB.2]
  have h5 : ((groupBlocks pairs).map (fun e => e.2)).filter
      (fun b => strm_type b = "GPS5") = [] := by
    rw [List.filter_eq_nil_iff]
    intro b hb
    have hB := hnone b hb
    simp [strm_type, hB.1, hB.2]
  simp only [h9, h5, List.mapM_nil, pure, Except.pure]
  simp

/-- C3 counterexample: a buffer with one accelerometer-like block (no
GPS9, no GPS5 anywhere) makes gpmf2gpx exit the process with code 1,
rather than returning a failure outcome to the caller. -/
theorem claim_C3_counterexample :
    gpmf2gpx [65, 67, 67, 76, 98, 1, 0, 4, 1, 2, 3, 4] = .exited 1 := by
  decide

/-- Witness for C3 on the empty buffer, which assembles no blocks at
all. -/
theorem claim_C3_witness : gpmf2gpx [] = .exited 1 := by
  exact claim_C3 [] [] (by decide) (by decide)
